import Mathlib

/-!
Verification of the coffee-shop backend (src/backend/src/api.py) against its
specification.  The file shallowly embeds the route handlers of api.py; the
collaborating classes (`Drink`, `Transaction`, `requires_auth`) live in modules
of the repository that are not part of the provided sources, so they are
modelled from the specification where needed, as marked in their doc comments.
-/

namespace CoffeeShop

/-- Modelled from the spec: the `Drink` model (src/backend/src/database/models.py
is not among the provided sources).  Per spec section 3, an ingredient record
has a name, a color and a parts-count. -/
structure Ingredient where
  name : String
  color : String
  parts : Nat
deriving DecidableEq, Repr

/-- Modelled from the spec: the `Drink` model (src/backend/src/database/models.py
is not among the provided sources).  Per spec section 3, a drink has a
store-assigned integer identifier, a text title, and a recipe that is an
ordered sequence of ingredient records (stored serialized as text; the model
keeps the decoded sequence, since the serialization round-trips). -/
structure Drink where
  id : Nat
  title : String
  recipe : List Ingredient
deriving DecidableEq, Repr

/-- The drinks table: the relational store holding all drinks. -/
abbrev Store := List Drink

/-- Modelled from the spec: the short projection `drink.short()` of the missing
models module.  Spec section 3: identifier, title, recipe with only
color and parts-count per ingredient. -/
structure ShortIngredient where
  color : String
  parts : Nat
deriving DecidableEq, Repr

/-- Modelled from the spec: `drink.short()` keeps identifier, title and the
color/parts projection of each ingredient. -/
structure ShortDrink where
  id : Nat
  title : String
  recipe : List ShortIngredient
deriving DecidableEq, Repr

/-- Modelled from the spec: the short projection of one ingredient. -/
def Ingredient.short (i : Ingredient) : ShortIngredient :=
  { color := i.color, parts := i.parts }

/-- Modelled from the spec: `drink.short()`. -/
def Drink.short (d : Drink) : ShortDrink :=
  { id := d.id, title := d.title, recipe := d.recipe.map Ingredient.short }

/-- Values appearing as the `recipe` field of a request body.  A JSON request
body can carry a serializable sequence (a list of ingredient records) or a
value that `json.dumps` cannot serialize; a non-serializable Python object may
itself be truthy or falsy, so that flag is carried explicitly. -/
inductive RecipeVal where
  | jlist (xs : List Ingredient)
  | bad (truthy : Bool)
deriving DecidableEq, Repr

/-- Python truthiness of a recipe value: an empty sequence is falsy. -/
def RecipeVal.isTruthy : RecipeVal → Bool
  | .jlist xs => !xs.isEmpty
  | .bad t => t

/-- Embedding of `json.dumps` applied to a recipe value: it fails (raises) on a
non-serializable value and otherwise produces the serialized text, modelled by
the sequence it denotes. -/
def jsonDumps : RecipeVal → Option (List Ingredient)
  | .jlist xs => some xs
  | .bad _ => none

/-- A parsed JSON request body as the handlers read it: each field is either
absent or present with a value.  `request_json.get('title', '')` and
`request_json.get('recipe', [])` in api.py supply the defaults. -/
structure RequestBody where
  title : Option String
  recipe : Option RecipeVal
deriving DecidableEq, Repr

/-- The request body as seen by `request.get_json()`: `none` embeds every case
in which parsing raises (malformed JSON, non-object body), which the bare
`except` clauses of api.py turn into a 422 abort. -/
abbrev Request := Option RequestBody

/-- Embedding of `request_json.get('title', '')` (api.py lines 72 and 105). -/
def RequestBody.titleField (b : RequestBody) : String :=
  b.title.getD ""

/-- Embedding of `request_json.get('recipe', [])` (api.py lines 73 and 108). -/
def RequestBody.recipeField (b : RequestBody) : RecipeVal :=
  b.recipe.getD (RecipeVal.jlist [])

/-- JSON values, used to state the exact response bodies api.py builds. -/
inductive Json where
  | str (s : String)
  | num (n : Nat)
  | bool (b : Bool)
  | arr (xs : List Json)
  | obj (fields : List (String × Json))

/-- Modelled from the spec: the long projection `drink.long()` of the missing
models module.  Spec section 3: identifier, title and the full recipe. -/
def Ingredient.longJson (i : Ingredient) : Json :=
  Json.obj [("name", Json.str i.name), ("color", Json.str i.color),
            ("parts", Json.num i.parts)]

/-- Modelled from the spec: `drink.long()` renders identifier, title and the
full recipe. -/
def Drink.long (d : Drink) : Json :=
  Json.obj [("id", Json.num d.id), ("title", Json.str d.title),
            ("recipe", Json.arr (d.recipe.map Ingredient.longJson))]

/-- An HTTP response: status code and JSON body. -/
structure Response where
  status : Nat
  body : Json

/-- Outcome of a unit of work run against the store: either it returns a drink
normally, leaving a pending store mutation, or it raises `abort(status)`. -/
inductive TxOut where
  | ok (d : Drink) (s : Store)
  | abort (status : Nat)
deriving DecidableEq, Repr

/-- The error handlers registered with `@app.errorhandler` in api.py: only 422
(lines 144-152) and 404 (lines 157-165) are registered; no handler exists for
any other status code, in particular none for 5xx server errors. -/
def registeredErrorHandler : Nat → Option Json
  | 422 => some (Json.obj [("success", Json.bool false), ("error", Json.num 422),
                           ("message", Json.str "unprocessable")])
  | 404 => some (Json.obj [("success", Json.bool false), ("error", Json.num 404),
                           ("message", Json.str "resource not found")])
  | _ => none

/-- The framework's fallback error page for a status with no registered
handler: an HTML document, not a JSON object of the uniform error shape. -/
def frameworkDefaultBody (n : Nat) : Json :=
  Json.str ("default html error page for status " ++ toString n)

/-- Dispatch of an aborted status code to the registered error handler, or to
the framework default when none is registered. -/
def abortResponse (n : Nat) : Response :=
  match registeredErrorHandler n with
  | some body => { status := n, body := body }
  | none => { status := n, body := frameworkDefaultBody n }

/-- Events observable from one invocation of the transaction wrapper; used to
state the execute-once and commit-xor-rollback invariants. -/
inductive TxEvent where
  | workRun
  | commit
  | rollback
deriving DecidableEq, Repr

/-- Result of running a unit of work through the transaction wrapper. -/
structure RunResult where
  response : Response
  store : Store
  events : List TxEvent

/-- Modelled from the spec: the `Transaction` class
(src/backend/src/database/models.py is not among the provided sources).  Spec
section 4.3: it executes the unit of work exactly once; if the work raises an
abort the wrapper rolls the pending mutation back and re-raises the same
signal for the uniform error responder; if the work returns a drink normally
the wrapper commits the mutation and invokes the success-rendering function on
the drink with status 200.  api.py invokes it as `tx.success(success).run()`. -/
def Transaction.run (work : Store → TxOut) (success : Drink → Json)
    (store : Store) : RunResult :=
  match work store with
  | .ok d s => { response := { status := 200, body := success d },
                 store := s, events := [TxEvent.workRun, TxEvent.commit] }
  | .abort n => { response := abortResponse n,
                  store := store, events := [TxEvent.workRun, TxEvent.rollback] }

/-- Embedding of `Drink.query.get(id)`: primary-key lookup in the store. -/
def findDrink (store : Store) (i : Nat) : Option Drink :=
  store.find? (fun d => d.id = i)

/-- The unit of work of `post_drink` (api.py lines 68-79): parse `title` and
`recipe` with their defaults, build a drink whose recipe is the serialized
value — any raise in this block aborts with 422 — then insert the drink. -/
def postTx (nid : Nat) (req : Request) (store : Store) : TxOut :=
  match req with
  | none => TxOut.abort 422
  | some b =>
    match jsonDumps b.recipeField with
    | none => TxOut.abort 422
    | some r =>
      let drink : Drink := { id := nid, title := b.titleField, recipe := r }
      TxOut.ok drink (store ++ [drink])

/-- The success callback of `post_drink` (api.py line 81). -/
def postSuccess (d : Drink) : Json :=
  Json.obj [("success", Json.bool true), ("drinks", Json.arr [d.long])]

/-- The `POST /drinks` handler `post_drink` (api.py lines 65-82), as the
transaction wrapper runs its unit of work.  `nid` is the identifier the store
assigns to the inserted row. -/
def postDrink (store : Store) (nid : Nat) (req : Request) : RunResult :=
  Transaction.run (postTx nid req) postSuccess store

/-- Replacement of the drink whose identifier is `i` by `d` — the pending
mutation left by the in-place field assignments of `update_drink` on the
object the session tracks for that row. -/
def replaceDrink (store : Store) (i : Nat) (d : Drink) : Store :=
  store.map (fun x => if x.id = i then d else x)

/-- The unit of work of `update_drink` (api.py lines 97-113): look the drink up
by id and abort 404 when absent; then, inside the try block, parse the body —
a raise aborts 422 — and assign each field only when its parsed value is
truthy, serializing the recipe with `json.dumps` (which raises, hence aborts
422, on a non-serializable truthy value). -/
def updateTx (i : Nat) (req : Request) (store : Store) : TxOut :=
  match findDrink store i with
  | none => TxOut.abort 404
  | some drink =>
    match req with
    | none => TxOut.abort 422
    | some b =>
      let d1 := if b.titleField ≠ "" then { drink with title := b.titleField }
                else drink
      if b.recipeField.isTruthy then
        match jsonDumps b.recipeField with
        | none => TxOut.abort 422
        | some r =>
          TxOut.ok { d1 with recipe := r } (replaceDrink store i { d1 with recipe := r })
      else TxOut.ok d1 (replaceDrink store i d1)

/-- The success callback of `update_drink` (api.py line 115). -/
def updateSuccess (d : Drink) : Json :=
  Json.obj [("success", Json.bool true), ("drinks", Json.arr [d.long])]

/-- The `PATCH /drinks/<id>` handler `update_drink` (api.py lines 94-116). -/
def updateDrink (store : Store) (i : Nat) (req : Request) : RunResult :=
  Transaction.run (updateTx i req) updateSuccess store

/-- The unit of work of `delete_drinks` (api.py lines 130-135): look the drink
up by id, abort 404 when absent, otherwise delete that row. -/
def deleteTx (i : Nat) (store : Store) : TxOut :=
  match findDrink store i with
  | none => TxOut.abort 404
  | some drink => TxOut.ok drink (store.eraseP (fun d => d.id = i))

/-- The success callback of `delete_drinks` (api.py line 137): it reports the
deleted identifier, not the full entity. -/
def deleteSuccess (d : Drink) : Json :=
  Json.obj [("success", Json.bool true), ("delete", Json.num d.id)]

/-- The `DELETE /drinks/<id>` handler `delete_drinks` (api.py lines 127-138). -/
def deleteDrink (store : Store) (i : Nat) : RunResult :=
  Transaction.run (deleteTx i) deleteSuccess store

/-- Modelled from the spec: the `AuthError` exception of the missing auth
module (src/backend/src/auth/auth.py is not among the provided sources).
api.py reads `error.status_code` and `error.error` from it (lines 174-175);
spec section 4.2 has the guard carry an HTTP-appropriate status code and a
machine-readable error code string. -/
structure AuthError where
  status_code : Nat
  error : String
deriving DecidableEq, Repr

/-- Modelled from the spec: the verified token of spec section 3 — transient,
holding the permission set extracted from the granted claims. -/
structure AuthToken where
  permissions : List String
deriving DecidableEq, Repr

/-- Modelled from the spec: the raw bearer-token material the verifier checks
(spec section 4.1) — well-formedness of the header and token structure,
whether a known signing key validates the signature, whether the expiry claim
is in the past, and the permission claims. -/
structure BearerToken where
  wellFormed : Bool
  signatureValid : Bool
  expired : Bool
  permissions : List String
deriving DecidableEq, Repr

/-- Modelled from the spec: `verify(token)` of spec section 4.1 with the
status codes of section 4.2 — it fails with MissingToken (401) when no bearer
token is present, MalformedToken (400) on a malformed header, InvalidSignature
(401) when no known key validates the signature, ExpiredToken (401) when the
expiry claim is in the past, and otherwise returns the AuthToken carrying the
permission set. -/
def verify : Option BearerToken → Except AuthError AuthToken
  | none => Except.error { status_code := 401, error := "missing_token" }
  | some t =>
    if !t.wellFormed then Except.error { status_code := 400, error := "malformed_token" }
    else if !t.signatureValid then
      Except.error { status_code := 401, error := "invalid_signature" }
    else if t.expired then Except.error { status_code := 401, error := "expired_token" }
    else Except.ok { permissions := t.permissions }

/-- Outcome of a guarded request: either the guard rejected it with an
AuthError, or the handler body ran and produced a value. -/
inductive Guarded (α : Type) where
  | authFailed (e : AuthError)
  | handled (a : α)
deriving DecidableEq, Repr

/-- Modelled from the spec: the `requires_auth(permission)` decorator of the
missing auth module, as used at api.py lines 47, 66, 95 and 128.  Spec section
4.2: it calls the verifier and propagates a verification failure as an
authorization error; if verification succeeds but the permission is not in the
token's permission set it fails with InsufficientScope (status 403); only when
authorized does it invoke the handler. -/
def requiresAuth (permission : String) (handler : Unit → α)
    (t : Option BearerToken) : Guarded α :=
  match verify t with
  | Except.error e => Guarded.authFailed e
  | Except.ok tok =>
    if permission ∈ tok.permissions then Guarded.handled (handler ())
    else Guarded.authFailed { status_code := 403, error := "insufficient_scope" }

/-- The `@app.errorhandler(AuthError)` responder `auth_error` (api.py lines
170-178). -/
def authErrorResponse (e : AuthError) : Response :=
  { status := e.status_code,
    body := Json.obj [("success", Json.bool false), ("error", Json.num e.status_code),
                      ("message", Json.str e.error)] }

/-- The failure kinds of spec section 7: authorization errors, NotFound (404),
Unprocessable (422) and ServerError (5xx store/commit failures). -/
inductive Failure where
  | auth (e : AuthError)
  | notFound
  | unprocessable
  | server (status : Nat)
deriving DecidableEq, Repr

/-- The response the application produces for each failure kind: AuthError
goes through the `auth_error` responder; status-code aborts go through the
registered status handlers, falling back to the framework default when no
handler is registered for the status. -/
def failureResponse : Failure → Response
  | .auth e => authErrorResponse e
  | .notFound => abortResponse 404
  | .unprocessable => abortResponse 422
  | .server n => abortResponse n

/-- The uniform error body shape of spec section 6: a JSON object with exactly
the fields success (false), error (a numeric code) and message (a string). -/
def uniformErrorShape (j : Json) : Prop :=
  ∃ code msg, j = Json.obj [("success", Json.bool false), ("error", Json.num code),
                            ("message", Json.str msg)]

/-! Helper lemmas about the store primitives. -/

/-- A lookup in a store none of whose identifiers is `i` misses. -/
theorem findDrink_eq_none_of_not_mem {store : Store} {i : Nat}
    (h : i ∉ store.map Drink.id) : findDrink store i = none := by
  rw [findDrink, List.find?_eq_none]
  intro x hx
  simp only [decide_eq_true_eq]
  intro hxi
  exact h (hxi ▸ List.mem_map_of_mem Drink.id hx)

/-- A successful lookup returns a member of the store carrying the looked-up
identifier. -/
theorem findDrink_some {store : Store} {i : Nat} {d : Drink}
    (h : findDrink store i = some d) : d.id = i ∧ d ∈ store := by
  refine ⟨?_, List.mem_of_find?_eq_some h⟩
  have := List.find?_some h
  simpa using this

/-- After replacing the drink at an identifier that is present, lookup at that
identifier returns the replacement. -/
theorem findDrink_replace {store : Store} {i : Nat} {d : Drink}
    (h : findDrink store i = some d) (d' : Drink) (hid : d'.id = i) :
    findDrink (replaceDrink store i d') i = some d' := by
  induction store with
  | nil => simp [findDrink] at h
  | cons x xs ih =>
    by_cases hx : x.id = i
    · simp [findDrink, replaceDrink, hx, hid]
    · rw [findDrink, replaceDrink] at *
      simp only [List.map_cons, if_neg hx]
      rw [List.find?_cons_of_neg _ (by simpa using hx)]
      rw [List.find?_cons_of_neg _ (by simpa using hx)] at h
      exact ih h

/-- Erasing the drink at an identifier removes it from lookup, provided the
store's identifiers are distinct (they are: the identifier is the primary
key). -/
theorem findDrink_eraseP {store : Store} {i : Nat} {d : Drink}
    (hnodup : (store.map Drink.id).Nodup) (h : findDrink store i = some d) :
    findDrink (store.eraseP (fun x => x.id = i)) i = none := by
  induction store with
  | nil => simp [findDrink] at h
  | cons x xs ih =>
    rw [List.map_cons, List.nodup_cons] at hnodup
    by_cases hx : x.id = i
    · rw [List.eraseP_cons_of_pos (by simpa using hx)]
      exact findDrink_eq_none_of_not_mem (hx ▸ hnodup.1)
    · rw [List.eraseP_cons_of_neg (by simpa using hx)]
      rw [findDrink, List.find?_cons_of_neg _ (by simpa using hx)] at h
      rw [findDrink, List.find?_cons_of_neg _ (by simpa using hx)]
      exact ih hnodup.2 h

/-- Appending a drink with a fresh identifier makes it findable. -/
theorem findDrink_append {store : Store} {i : Nat}
    (h : findDrink store i = none) (d : Drink) (hid : d.id = i) :
    findDrink (store ++ [d]) i = some d := by
  unfold findDrink at h ⊢
  rw [List.find?_append, h]
  simp [hid]

/-- Reduction of the transaction wrapper when the unit of work returns
normally. -/
theorem Transaction.run_ok {work : Store → TxOut} {store s : Store} {d : Drink}
    (success : Drink → Json) (h : work store = TxOut.ok d s) :
    Transaction.run work success store =
      ⟨⟨200, success d⟩, s, [TxEvent.workRun, TxEvent.commit]⟩ := by
  unfold Transaction.run
  rw [h]

/-- Reduction of the transaction wrapper when the unit of work aborts. -/
theorem Transaction.run_abort {work : Store → TxOut} {store : Store} {n : Nat}
    (success : Drink → Json) (h : work store = TxOut.abort n) :
    Transaction.run work success store =
      ⟨abortResponse n, store, [TxEvent.workRun, TxEvent.rollback]⟩ := by
  unfold Transaction.run
  rw [h]

/-- Reduction of the update unit of work when the drink exists: the residual
computation over the parsed body. -/
theorem updateTx_found {store : Store} {i : Nat} {d : Drink} (b : RequestBody)
    (hd : findDrink store i = some d) :
    updateTx i (some b) store =
      (let d1 := if b.titleField ≠ "" then { d with title := b.titleField } else d
       if b.recipeField.isTruthy then
         match jsonDumps b.recipeField with
         | none => TxOut.abort 422
         | some r =>
           TxOut.ok { d1 with recipe := r } (replaceDrink store i { d1 with recipe := r })
       else TxOut.ok d1 (replaceDrink store i d1)) := by
  unfold updateTx
  rw [hd]

/-! Theorems for the claims. -/

/-- C2: for every POST /drinks request whose parsing or Drink construction
raises any error (the body is unparseable, or `json.dumps` raises on a
non-serializable recipe value), `post_drink` responds with status 422 and the
store is left unchanged — no partial insert occurs. -/
theorem post_parse_failure_422 (store : Store) (nid : Nat) (req : Request)
    (h : req = none ∨ ∃ b, req = some b ∧ jsonDumps b.recipeField = none) :
    (postDrink store nid req).response.status = 422 ∧
    (postDrink store nid req).store = store := by
  rcases h with h | ⟨b, hb, hr⟩
  · subst h
    exact ⟨rfl, rfl⟩
  · subst hb
    simp only [postDrink, Transaction.run, postTx, hr]
    constructor <;> trivial

/-- Witness for C2: a concrete request whose recipe value is non-serializable
gets a 422 and leaves a concrete store unchanged. -/
theorem post_parse_failure_422_witness :
    (postDrink [⟨1, "cola", []⟩] 2 (some ⟨some "tea", some (RecipeVal.bad true)⟩)).response.status = 422 ∧
    (postDrink [⟨1, "cola", []⟩] 2 (some ⟨some "tea", some (RecipeVal.bad true)⟩)).store = [⟨1, "cola", []⟩] :=
  post_parse_failure_422 [⟨1, "cola", []⟩] 2 (some ⟨some "tea", some (RecipeVal.bad true)⟩)
    (Or.inr ⟨⟨some "tea", some (RecipeVal.bad true)⟩, rfl, rfl⟩)

/-- C8: for every PATCH /drinks/id request where no drink with that id exists,
`update_drink` responds 404 and the store is unchanged. -/
theorem update_missing_404 (store : Store) (i : Nat) (req : Request)
    (h : findDrink store i = none) :
    (updateDrink store i req).response.status = 404 ∧
    (updateDrink store i req).store = store := by
  simp only [updateDrink, Transaction.run, updateTx, h]
  constructor <;> trivial

/-- Witness for C8: a concrete PATCH on an id absent from a concrete store
returns 404 and leaves the store unchanged. -/
theorem update_missing_404_witness :
    (updateDrink [⟨1, "cola", []⟩] 7 (some ⟨some "tea", none⟩)).response.status = 404 ∧
    (updateDrink [⟨1, "cola", []⟩] 7 (some ⟨some "tea", none⟩)).store = [⟨1, "cola", []⟩] :=
  update_missing_404 [⟨1, "cola", []⟩] 7 (some ⟨some "tea", none⟩) (by decide)

/-- C10: in `update_drink` the existence check precedes body parsing — a PATCH
whose id matches no stored drink gets 404 for every request body, malformed or
unparseable included, and the 422 path is reachable only when the drink
exists. -/
theorem update_404_before_parse (store : Store) (i : Nat) :
    (∀ req : Request, findDrink store i = none →
      (updateDrink store i req).response.status = 404) ∧
    (∀ req : Request, (updateDrink store i req).response.status = 422 →
      ∃ d, findDrink store i = some d) := by
  constructor
  · intro req h
    exact (update_missing_404 store i req h).1
  · intro req h
    match hf : findDrink store i with
    | some d => exact ⟨d, rfl⟩
    | none =>
      rw [(update_missing_404 store i req hf).1] at h
      exact absurd h (by decide)

/-- Witness for C10: on a concrete empty store the malformed-body PATCH gets
404, and a concrete 422 response implies the drink existed. -/
theorem update_404_before_parse_witness :
    (updateDrink ([] : Store) 7 none).response.status = 404 ∧
    ((updateDrink [⟨1, "cola", []⟩] 1 none).response.status = 422 →
      ∃ d, findDrink [⟨1, "cola", []⟩] 1 = some d) :=
  ⟨(update_404_before_parse ([] : Store) 7).1 none (by decide),
   (update_404_before_parse [⟨1, "cola", []⟩] 1).2 none⟩

/-- C1: for every drink present in the store and every PATCH body,
`update_drink` changes only the fields that are supplied and truthy: an empty
(hence absent-or-falsy) title leaves the stored title unchanged, a falsy
recipe leaves the stored recipe unchanged, and when the update commits the
supplied truthy fields take the supplied values. -/
theorem update_partial_fields (store : Store) (i : Nat) (b : RequestBody) (d : Drink)
    (hd : findDrink store i = some d) :
    ∃ d', findDrink (updateDrink store i (some b)).store i = some d' ∧
      (b.titleField = "" → d'.title = d.title) ∧
      (b.recipeField.isTruthy = false → d'.recipe = d.recipe) ∧
      ((updateDrink store i (some b)).response.status = 200 →
        (b.titleField ≠ "" → d'.title = b.titleField) ∧
        (∀ r, jsonDumps b.recipeField = some r → b.recipeField.isTruthy = true →
          d'.recipe = r)) := by
  have hid := (findDrink_some hd).1
  by_cases ht : b.recipeField.isTruthy
  · cases hr : jsonDumps b.recipeField with
    | none =>
      have htx : updateTx i (some b) store = TxOut.abort 422 := by
        rw [updateTx_found b hd]
        simp [ht, hr]
      have hrun := Transaction.run_abort updateSuccess htx
      refine ⟨d, ?_, fun _ => rfl, fun _ => rfl, ?_⟩
      · rw [updateDrink, hrun]
        exact hd
      · intro h200
        rw [updateDrink, hrun] at h200
        have h422 : (422 : Nat) = 200 := h200
        exact absurd h422 (by decide)
    | some r =>
      have htx : updateTx i (some b) store =
          TxOut.ok { (if b.titleField ≠ "" then { d with title := b.titleField } else d)
                       with recipe := r }
            (replaceDrink store i
              { (if b.titleField ≠ "" then { d with title := b.titleField } else d)
                  with recipe := r }) := by
        rw [updateTx_found b hd]
        simp [ht, hr]
      have hrun := Transaction.run_ok updateSuccess htx
      have hid1 : ({ (if b.titleField ≠ "" then { d with title := b.titleField } else d)
                       with recipe := r }).id = i := by
        by_cases hT : b.titleField ≠ "" <;> simp [hT, hid]
      refine ⟨{ (if b.titleField ≠ "" then { d with title := b.titleField } else d)
                  with recipe := r }, ?_, ?_, ?_, ?_⟩
      · rw [updateDrink, hrun]
        exact findDrink_replace hd _ hid1
      · intro hT
        simp [hT]
      · intro hF
        simp [ht] at hF
      · intro _
        refine ⟨fun hT => by simp [hT], fun r' hr' _ => ?_⟩
        cases hr'
        rfl
  · have htF : b.recipeField.isTruthy = false := by simpa using ht
    have htx : updateTx i (some b) store =
        TxOut.ok (if b.titleField ≠ "" then { d with title := b.titleField } else d)
          (replaceDrink store i
            (if b.titleField ≠ "" then { d with title := b.titleField } else d)) := by
      rw [updateTx_found b hd]
      simp [htF]
    have hrun := Transaction.run_ok updateSuccess htx
    have hid1 : (if b.titleField ≠ "" then { d with title := b.titleField } else d).id = i := by
      by_cases hT : b.titleField ≠ "" <;> simp [hT, hid]
    refine ⟨(if b.titleField ≠ "" then { d with title := b.titleField } else d),
      ?_, ?_, ?_, ?_⟩
    · rw [updateDrink, hrun]
      exact findDrink_replace hd _ hid1
    · intro hT
      simp [hT]
    · intro _
      by_cases hT : b.titleField ≠ "" <;> simp [hT]
    · intro _
      refine ⟨fun hT => by simp [hT], fun r' _ hr'' => ?_⟩
      rw [htF] at hr''
      exact absurd hr'' (by decide)

/-- Witness for C1: updating a concrete stored drink with only a title
supplied leaves its recipe unchanged. -/
theorem update_partial_fields_witness :
    ∃ d', findDrink (updateDrink [⟨1, "cola", [⟨"water", "clear", 1⟩]⟩] 1
            (some ⟨some "tea", none⟩)).store 1 = some d' ∧
      ((⟨some "tea", none⟩ : RequestBody).titleField = "" →
        d'.title = Drink.title ⟨1, "cola", [⟨"water", "clear", 1⟩]⟩) ∧
      ((⟨some "tea", none⟩ : RequestBody).recipeField.isTruthy = false →
        d'.recipe = Drink.recipe ⟨1, "cola", [⟨"water", "clear", 1⟩]⟩) ∧
      ((updateDrink [⟨1, "cola", [⟨"water", "clear", 1⟩]⟩] 1
          (some ⟨some "tea", none⟩)).response.status = 200 →
        ((⟨some "tea", none⟩ : RequestBody).titleField ≠ "" →
          d'.title = (⟨some "tea", none⟩ : RequestBody).titleField) ∧
        (∀ r, jsonDumps (⟨some "tea", none⟩ : RequestBody).recipeField = some r →
          (⟨some "tea", none⟩ : RequestBody).recipeField.isTruthy = true →
          d'.recipe = r)) :=
  update_partial_fields [⟨1, "cola", [⟨"water", "clear", 1⟩]⟩] 1
    ⟨some "tea", none⟩ ⟨1, "cola", [⟨"water", "clear", 1⟩]⟩ (by decide)

/-- C5: DELETE /drinks/id responds 404 and leaves the store unchanged when the
id is absent; when the drink exists it is removed — a subsequent lookup
misses — and the response is status 200 with body success true and the
deleted id, not the full entity. -/
theorem delete_found_and_missing (store : Store) (i : Nat)
    (hnodup : (store.map Drink.id).Nodup) :
    (findDrink store i = none →
      (deleteDrink store i).response.status = 404 ∧
      (deleteDrink store i).store = store) ∧
    (∀ d, findDrink store i = some d →
      (deleteDrink store i).response =
        ⟨200, Json.obj [("success", Json.bool true), ("delete", Json.num d.id)]⟩ ∧
      findDrink (deleteDrink store i).store i = none) := by
  constructor
  · intro h
    have htx : deleteTx i store = TxOut.abort 404 := by
      unfold deleteTx
      rw [h]
    rw [deleteDrink, Transaction.run_abort deleteSuccess htx]
    exact ⟨rfl, rfl⟩
  · intro d hd
    have htx : deleteTx i store = TxOut.ok d (store.eraseP (fun x => x.id = i)) := by
      unfold deleteTx
      rw [hd]
    rw [deleteDrink, Transaction.run_ok deleteSuccess htx]
    exact ⟨rfl, findDrink_eraseP hnodup hd⟩

/-- Witness for C5: on a concrete one-drink store, deleting a missing id gives
404 with the store unchanged, and deleting the present id yields the
success-and-id body and makes a subsequent lookup miss. -/
theorem delete_found_and_missing_witness :
    ((deleteDrink [⟨1, "cola", []⟩] 2).response.status = 404 ∧
      (deleteDrink [⟨1, "cola", []⟩] 2).store = [⟨1, "cola", []⟩]) ∧
    ((deleteDrink [⟨1, "cola", []⟩] 1).response =
        ⟨200, Json.obj [("success", Json.bool true), ("delete", Json.num 1)]⟩ ∧
      findDrink (deleteDrink [⟨1, "cola", []⟩] 1).store 1 = none) :=
  ⟨(delete_found_and_missing [⟨1, "cola", []⟩] 2 (by decide)).1 (by decide),
   (delete_found_and_missing [⟨1, "cola", []⟩] 1 (by decide)).2 ⟨1, "cola", []⟩ (by decide)⟩

/-- Stores reached by repeatedly running the DELETE handler for identifier `i`
starting from a store. -/
def iteratedDeleteStore (i : Nat) (store : Store) : Nat → Store
  | 0 => store
  | n + 1 => (deleteDrink (iteratedDeleteStore i store n) i).store

/-- C6: deletion is idempotent in outcome — once the first DELETE of an id
succeeds with 200, every repeated DELETE of the same id responds 404, never a
second success. -/
theorem delete_idempotent_404 (store : Store) (i : Nat) (d : Drink)
    (hnodup : (store.map Drink.id).Nodup) (hd : findDrink store i = some d) :
    (deleteDrink store i).response.status = 200 ∧
    ∀ n, (deleteDrink (iteratedDeleteStore i store (n + 1)) i).response.status = 404 := by
  have htx : deleteTx i store = TxOut.ok d (store.eraseP (fun x => x.id = i)) := by
    unfold deleteTx
    rw [hd]
  have habort : ∀ s : Store, findDrink s i = none →
      (deleteDrink s i).response.status = 404 ∧ (deleteDrink s i).store = s := by
    intro s h
    have htx2 : deleteTx i s = TxOut.abort 404 := by
      unfold deleteTx
      rw [h]
    rw [deleteDrink, Transaction.run_abort deleteSuccess htx2]
    exact ⟨rfl, rfl⟩
  have hnone : ∀ n, findDrink (iteratedDeleteStore i store (n + 1)) i = none := by
    intro n
    induction n with
    | zero =>
      show findDrink (deleteDrink store i).store i = none
      rw [deleteDrink, Transaction.run_ok deleteSuccess htx]
      exact findDrink_eraseP hnodup hd
    | succ m ihm =>
      show findDrink (deleteDrink (iteratedDeleteStore i store (m + 1)) i).store i = none
      rw [(habort _ ihm).2]
      exact ihm
  constructor
  · rw [deleteDrink, Transaction.run_ok deleteSuccess htx]
  · intro n
    exact (habort _ (hnone n)).1

/-- Witness for C6: on a concrete store the first DELETE succeeds and the
second (and every later) DELETE of the same id responds 404. -/
theorem delete_idempotent_404_witness :
    (deleteDrink [⟨1, "cola", []⟩] 1).response.status = 200 ∧
    (deleteDrink (iteratedDeleteStore 1 [⟨1, "cola", []⟩] 1) 1).response.status = 404 :=
  ⟨(delete_idempotent_404 [⟨1, "cola", []⟩] 1 ⟨1, "cola", []⟩ (by decide) (by decide)).1,
   (delete_idempotent_404 [⟨1, "cola", []⟩] 1 ⟨1, "cola", []⟩ (by decide) (by decide)).2 0⟩

/-- C9: for every parsable POST body, `post_drink` inserts a new drink built
from `title` (default empty string) and `recipe` (default empty sequence) and
responds 200 with the new drink in long projection inside a single-element
list; with a fresh identifier the inserted drink is retrievable afterward, and
the all-absent body parses to exactly the defaults. -/
theorem post_creates (store : Store) (nid : Nat) (b : RequestBody) (r : List Ingredient)
    (hr : jsonDumps b.recipeField = some r) :
    (postDrink store nid (some b)).response =
      ⟨200, Json.obj [("success", Json.bool true),
                      ("drinks", Json.arr [Drink.long ⟨nid, b.titleField, r⟩])]⟩ ∧
    (postDrink store nid (some b)).store = store ++ [⟨nid, b.titleField, r⟩] ∧
    (findDrink store nid = none →
      findDrink (postDrink store nid (some b)).store nid = some ⟨nid, b.titleField, r⟩) ∧
    (RequestBody.mk none none).titleField = "" ∧
    jsonDumps (RequestBody.mk none none).recipeField = some [] := by
  have htx : postTx nid (some b) store =
      TxOut.ok ⟨nid, b.titleField, r⟩ (store ++ [⟨nid, b.titleField, r⟩]) := by
    unfold postTx
    simp [hr]
  rw [postDrink, Transaction.run_ok postSuccess htx]
  refine ⟨rfl, rfl, ?_, rfl, rfl⟩
  intro h
  exact findDrink_append h _ rfl

/-- Witness for C9: creating with the all-absent body on an empty store
inserts the drink with empty title and empty recipe, and it is retrievable. -/
theorem post_creates_witness :
    (postDrink [] 1 (some ⟨none, none⟩)).store = [⟨1, "", []⟩] ∧
    findDrink (postDrink [] 1 (some ⟨none, none⟩)).store 1 = some ⟨1, "", []⟩ :=
  ⟨(post_creates [] 1 ⟨none, none⟩ [] rfl).2.1,
   (post_creates [] 1 ⟨none, none⟩ [] rfl).2.2.1 rfl⟩

/-- C3: per invocation, the transaction wrapper runs the unit of work at most
once, commits exactly when the unit of work returns normally (and then the
committed store is the one the work produced, while an abort leaves the store
untouched), and performs exactly one of commit or rollback — never both,
never neither. -/
theorem transaction_invariants (work : Store → TxOut) (success : Drink → Json)
    (store : Store) :
    (Transaction.run work success store).events.count TxEvent.workRun ≤ 1 ∧
    (TxEvent.commit ∈ (Transaction.run work success store).events ↔
      ∃ d s, work store = TxOut.ok d s) ∧
    ((TxEvent.commit ∈ (Transaction.run work success store).events ∧
        TxEvent.rollback ∉ (Transaction.run work success store).events) ∨
      (TxEvent.rollback ∈ (Transaction.run work success store).events ∧
        TxEvent.commit ∉ (Transaction.run work success store).events)) ∧
    (∀ d s, work store = TxOut.ok d s → (Transaction.run work success store).store = s) ∧
    (∀ n, work store = TxOut.abort n → (Transaction.run work success store).store = store) := by
  cases hw : work store with
  | ok d s =>
    rw [Transaction.run_ok success hw]
    refine ⟨?_, ⟨fun _ => ⟨d, s, rfl⟩, fun _ => ?_⟩, Or.inl ⟨?_, ?_⟩, ?_, ?_⟩
    · show [TxEvent.workRun, TxEvent.commit].count TxEvent.workRun ≤ 1
      decide
    · show TxEvent.commit ∈ [TxEvent.workRun, TxEvent.commit]
      decide
    · show TxEvent.commit ∈ [TxEvent.workRun, TxEvent.commit]
      decide
    · show TxEvent.rollback ∉ [TxEvent.workRun, TxEvent.commit]
      decide
    · intro d' s' h
      cases h
      rfl
    · intro n h
      cases h
  | abort n =>
    rw [Transaction.run_abort success hw]
    refine ⟨?_, ⟨fun hc => ?_, fun he => ?_⟩, Or.inr ⟨?_, ?_⟩, ?_, ?_⟩
    · show [TxEvent.workRun, TxEvent.rollback].count TxEvent.workRun ≤ 1
      decide
    · exact absurd (show TxEvent.commit ∈ [TxEvent.workRun, TxEvent.rollback] from hc)
        (by decide)
    · obtain ⟨d, s, h⟩ := he
      cases h
    · show TxEvent.rollback ∈ [TxEvent.workRun, TxEvent.rollback]
      decide
    · show TxEvent.commit ∉ [TxEvent.workRun, TxEvent.rollback]
      decide
    · intro d' s' h
      cases h
    · intro m h
      cases h
      rfl

/-- Witness for C3: a concrete normally-returning unit of work runs once and
its store mutation is committed. -/
theorem transaction_invariants_witness :
    (Transaction.run (fun s => TxOut.ok ⟨1, "t", []⟩ s) postSuccess []).events.count
        TxEvent.workRun ≤ 1 ∧
    (Transaction.run (fun s => TxOut.ok ⟨1, "t", []⟩ s) postSuccess []).store = [] :=
  ⟨(transaction_invariants (fun s => TxOut.ok ⟨1, "t", []⟩ s) postSuccess []).1,
   (transaction_invariants (fun s => TxOut.ok ⟨1, "t", []⟩ s) postSuccess []).2.2.2.1
     ⟨1, "t", []⟩ [] rfl⟩

/-- Reduction of the guard when verification fails. -/
theorem requiresAuth_of_error {α : Type} {t : Option BearerToken} {e : AuthError}
    (p : String) (handler : Unit → α) (h : verify t = Except.error e) :
    requiresAuth p handler t = Guarded.authFailed e := by
  unfold requiresAuth
  rw [h]

/-- Reduction of the guard when verification succeeds: everything hinges on
permission membership. -/
theorem requiresAuth_of_ok {α : Type} {t : Option BearerToken} {tok : AuthToken}
    (p : String) (handler : Unit → α) (h : verify t = Except.ok tok) :
    requiresAuth p handler t =
      if p ∈ tok.permissions then Guarded.handled (handler ())
      else Guarded.authFailed ⟨403, "insufficient_scope"⟩ := by
  unfold requiresAuth
  rw [h]

/-- C4: a guarded handler body never runs unless verification succeeds and the
required permission is in the token's permission set; when verification
succeeds but the permission is absent the guard fails with InsufficientScope
and status 403; a verification failure propagates as that authorization
error. -/
theorem requires_auth_guard {α : Type} (p : String) (t : Option BearerToken) :
    (∀ (handler : Unit → α) (a : α), requiresAuth p handler t = Guarded.handled a →
      ∃ tok, verify t = Except.ok tok ∧ p ∈ tok.permissions) ∧
    (∀ tok, verify t = Except.ok tok → p ∉ tok.permissions →
      ∀ handler : Unit → α,
        requiresAuth p handler t = Guarded.authFailed ⟨403, "insufficient_scope"⟩) ∧
    (∀ e, verify t = Except.error e →
      ∀ handler : Unit → α, requiresAuth p handler t = Guarded.authFailed e) := by
  refine ⟨?_, ?_, ?_⟩
  · intro handler a h
    cases hv : verify t with
    | error e =>
      rw [requiresAuth_of_error p handler hv] at h
      cases h
    | ok tok =>
      rw [requiresAuth_of_ok p handler hv] at h
      by_cases hp : p ∈ tok.permissions
      · exact ⟨tok, rfl, hp⟩
      · rw [if_neg hp] at h
        cases h
  · intro tok hv hp handler
    rw [requiresAuth_of_ok p handler hv, if_neg hp]
  · intro e hv handler
    exact requiresAuth_of_error p handler hv

/-- Witness for C4: a concrete valid token lacking the required permission is
rejected by the guard with InsufficientScope, status 403. -/
theorem requires_auth_guard_witness :
    requiresAuth "post:drinks" (fun _ => (0 : Nat))
        (some ⟨true, true, false, ["get:drinks-detail"]⟩) =
      Guarded.authFailed ⟨403, "insufficient_scope"⟩ :=
  (requires_auth_guard "post:drinks" (some ⟨true, true, false, ["get:drinks-detail"]⟩)).2.1
    ⟨["get:drinks-detail"]⟩ rfl (by decide) (fun _ => (0 : Nat))

/-- C7 counterexample: a server error (status 500) has no registered error
handler in api.py, so its response body is the framework's default error page
and not the uniform JSON error shape — refuting the claim that every failure
kind yields the uniform shape. -/
theorem failure_uniform_shape_counterexample :
    ¬ uniformErrorShape (failureResponse (Failure.server 500)).body := by
  intro h
  obtain ⟨c, m, hm⟩ := h
  have hs : (failureResponse (Failure.server 500)).body =
      Json.str ("default html error page for status " ++ toString 500) := rfl
  rw [hs] at hm
  exact Json.noConfusion hm

/-- C7 amended: every failure handled by a registered responder — an
authorization error, NotFound (404) or Unprocessable (422) — yields the
uniform JSON body with success false, a numeric error code, and a message
string; server errors (5xx) have no registered handler. -/
theorem failure_uniform_shape (f : Failure) (h : ∀ n, f ≠ Failure.server n) :
    uniformErrorShape (failureResponse f).body := by
  cases f with
  | auth e => exact ⟨e.status_code, e.error, rfl⟩
  | notFound => exact ⟨404, "resource not found", rfl⟩
  | unprocessable => exact ⟨422, "unprocessable", rfl⟩
  | server n => exact absurd rfl (h n)

/-- Witness for C7 amended: the NotFound failure yields the uniform error
shape. -/
theorem failure_uniform_shape_witness :
    uniformErrorShape (failureResponse Failure.notFound).body :=
  failure_uniform_shape Failure.notFound (fun _ h => Failure.noConfusion h)

end CoffeeShop
